import Mathlib

/-!
Verification of the PDFmaker frontend (Next.js client for an AI document
generator).  The definitions below are shallow embeddings of the handlers and
client wrappers in the repository: JSON values and JavaScript truthiness are
modelled explicitly, stateful React handlers become pure functions from the
relevant state (plus the outcome of the one API call they make) to the new
state, and the generic HTTP client becomes a function of the fetch outcome.
Source files are named at each definition.
-/

/-- JSON runtime values as produced by response.json(), with JavaScript
numbers restricted to integers (no float behaviour is relied on here). -/
inductive Json where
  | null
  | bool (b : Bool)
  | num (n : Int)
  | str (s : String)
  | arr (elems : List Json)
  | obj (fields : List (String × Json))

/-- JavaScript truthiness of a JSON value: null, false, 0 and the empty
string are falsy; arrays and objects are always truthy. -/
def Json.truthy : Json → Bool
  | .null => false
  | .bool b => b
  | .num n => n != 0
  | .str s => s != ""
  | .arr _ => true
  | .obj _ => true

/-- JavaScript property access value.key: returns the field of an object
(first binding wins), and undefined (none) on every non-object. -/
def Json.getField : Json → String → Option Json
  | .obj fields, key => fields.lookup key
  | _, _ => none

/-- Whether a JSON value is a string (typeof errorData === a string). -/
def Json.isStr : Json → Bool
  | .str _ => true
  | _ => false

/-- The string carried by a JSON string value, none otherwise (used to
compare concrete message values without a general equality on Json). -/
def Json.strValue? : Json → Option String
  | .str s => some s
  | _ => none

/-- Truthiness of a possibly-undefined JavaScript value: undefined is falsy. -/
def truthyOpt : Option Json → Bool
  | none => false
  | some v => v.truthy

/-- The JavaScript "or" operator on values: a || b is a when a is truthy,
else b. -/
def jsOr (a b : Json) : Json :=
  if a.truthy then a else b

/-- Whether the character list hay starts with the character list sub. -/
def listStartsWith : List Char → List Char → Bool
  | _, [] => true
  | [], _ :: _ => false
  | c :: cs, d :: ds => c == d && listStartsWith cs ds

/-- Whether the character list sub occurs contiguously inside hay. -/
def listIncludes (hay sub : List Char) : Bool :=
  match hay with
  | [] => listStartsWith [] sub
  | _ :: rest => listStartsWith hay sub || listIncludes rest sub

/-- JavaScript String.prototype.includes, modelled structurally so that it
evaluates by kernel reduction. -/
def jsIncludes (s sub : String) : Bool :=
  listIncludes s.data sub.data

/-- JavaScript String.prototype.trim: strip leading and trailing whitespace
(modelled with Char.isWhitespace; structural, kernel-reducible). -/
def jsTrim (s : String) : String :=
  String.mk (((s.data.dropWhile Char.isWhitespace).reverse.dropWhile
    Char.isWhitespace).reverse)

/-- The structured error shape thrown by the API client
(src/frontend/lib/api.ts; interface ApiError in the types module).  The
detail field is declared as a string in TypeScript but at runtime receives
whatever JSON value the error body carried, so it is modelled as Json. -/
structure ApiError where
  detail : Json
  status_code : Nat

/- ===== C1: dashboard navigation (src/frontend/app/dashboard/page.tsx,
   handleSelectProject) ===== -/

/-- The URL pushed by handleSelectProject for a project with the given id and
status.  The source is a switch on project.status: the case for
a configuring status routes to the configure page, the four generation
statuses fall through to the editor page, and the default case routes to the
configure page.  A switch over string literals is sequential strict equality,
embedded here as a chain of conditionals. -/
def DashboardPage.handleSelectProjectRoute (projectId status : String) : String :=
  if status = "configuring" then "/projects/" ++ projectId ++ "/configure"
  else if status = "generating" then "/projects/" ++ projectId ++ "/editor"
  else if status = "ready" then "/projects/" ++ projectId ++ "/editor"
  else if status = "ready_for_refinement" then "/projects/" ++ projectId ++ "/editor"
  else if status = "partially_generated" then "/projects/" ++ projectId ++ "/editor"
  else "/projects/" ++ projectId ++ "/configure"

/- ===== C2: outline / slide editors (WordOutlineEditor.tsx,
   PowerPointSlideEditor.tsx) ===== -/

/-- SectionConfig from the types module: a configured Word section header
with its 0-based position. -/
structure SectionConfig where
  header : String
  position : Nat
deriving DecidableEq, Inhabited

/-- SlideConfig from the types module: a configured PowerPoint slide title
with its 0-based position. -/
structure SlideConfig where
  title : String
  position : Nat
deriving DecidableEq, Inhabited

/-- The renumbering map shared by the editor handlers:
sections.map((section, i) => spread section with position := i). -/
def reindexSections (sections : List SectionConfig) : List SectionConfig :=
  sections.enum.map (fun p => { p.2 with position := p.1 })

/-- WordOutlineEditor handleAddSection: when the trimmed input is non-empty,
append a section whose header is the trimmed input and whose position is the
current length; otherwise the guard fails and the list is unchanged. -/
def WordOutlineEditor.handleAddSection (newSectionHeader : String)
    (sections : List SectionConfig) : List SectionConfig :=
  if jsTrim newSectionHeader ≠ "" then
    sections ++ [{ header := jsTrim newSectionHeader, position := sections.length }]
  else sections

/-- WordOutlineEditor handleRemoveSection: filter out the entry at the given
index, then renumber positions from array order. -/
def WordOutlineEditor.handleRemoveSection (index : Nat)
    (sections : List SectionConfig) : List SectionConfig :=
  reindexSections ((sections.enum.filter (fun p => p.1 ≠ index)).map Prod.snd)

/-- WordOutlineEditor handleMoveUp: return unchanged at index 0, otherwise
swap the entries at index-1 and index and renumber. -/
def WordOutlineEditor.handleMoveUp (index : Nat)
    (sections : List SectionConfig) : List SectionConfig :=
  if index = 0 then sections
  else
    let a := sections.getD index default
    let b := sections.getD (index - 1) default
    reindexSections ((sections.set (index - 1) a).set index b)

/-- WordOutlineEditor handleMoveDown: return unchanged at the last index
(the comparison index === sections.length - 1 is over JavaScript numbers, so
it is taken in Int), otherwise swap the entries at index and index+1 and
renumber. -/
def WordOutlineEditor.handleMoveDown (index : Nat)
    (sections : List SectionConfig) : List SectionConfig :=
  if (index : Int) = (sections.length : Int) - 1 then sections
  else
    let a := sections.getD (index + 1) default
    let b := sections.getD index default
    reindexSections ((sections.set index a).set (index + 1) b)

/-- PowerPointSlideEditor handleSlideCountChange.  The raw input string is
summarised by the result of parseInt(value, 10) (none for NaN) together with
whether the raw value is the empty string.  A parsed count in 1..100 rebuilds
the slide list with titles carried over from the old list (empty string
beyond its end; the JavaScript source reads slides[i]?.title || the empty
string, which equals the plain carry-over since the fallback is itself the
empty string) and positions 0..count-1; otherwise an empty input clears the
list and any other input leaves it unchanged. -/
def PowerPointSlideEditor.handleSlideCountChange (parsedCount : Option Int)
    (valueIsEmpty : Bool) (slides : List SlideConfig) : List SlideConfig :=
  match parsedCount with
  | some count =>
    if 0 < count ∧ count ≤ 100 then
      (List.range count.toNat).map (fun i =>
        { title := ((slides.get? i).map SlideConfig.title).getD "", position := i })
    else if valueIsEmpty then [] else slides
  | none => if valueIsEmpty then [] else slides

/-- PowerPointSlideEditor handleSlideTitleChange: replace the title of the
entry at the given index, keeping every position field. -/
def PowerPointSlideEditor.handleSlideTitleChange (index : Nat) (title : String)
    (slides : List SlideConfig) : List SlideConfig :=
  slides.enum.map (fun p => if p.1 = index then { p.2 with title := title } else p.2)

/-- The user-reachable operations of the Word outline editor. -/
inductive WordOp where
  | add (header : String)
  | remove (index : Nat)
  | moveUp (index : Nat)
  | moveDown (index : Nat)

/-- The user-reachable operations of the PowerPoint slide editor. -/
inductive SlideOp where
  | changeCount (parsedCount : Option Int) (valueIsEmpty : Bool)
  | changeTitle (index : Nat) (title : String)

/-- Dispatch one Word outline editor operation. -/
def applyWordOp (sections : List SectionConfig) : WordOp → List SectionConfig
  | .add header => WordOutlineEditor.handleAddSection header sections
  | .remove index => WordOutlineEditor.handleRemoveSection index sections
  | .moveUp index => WordOutlineEditor.handleMoveUp index sections
  | .moveDown index => WordOutlineEditor.handleMoveDown index sections

/-- Dispatch one PowerPoint slide editor operation. -/
def applySlideOp (slides : List SlideConfig) : SlideOp → List SlideConfig
  | .changeCount parsedCount valueIsEmpty =>
      PowerPointSlideEditor.handleSlideCountChange parsedCount valueIsEmpty slides
  | .changeTitle index title =>
      PowerPointSlideEditor.handleSlideTitleChange index title slides

/-- Run a sequence of Word outline editor operations. -/
def applyWordOps (sections : List SectionConfig) (ops : List WordOp) :
    List SectionConfig :=
  ops.foldl applyWordOp sections

/-- Run a sequence of PowerPoint slide editor operations. -/
def applySlideOps (slides : List SlideConfig) (ops : List SlideOp) :
    List SlideConfig :=
  ops.foldl applySlideOp slides

/-- The density invariant for sections: the position fields read off in array
order are exactly 0, 1, ..., n-1. -/
def sectionPositionsDense (sections : List SectionConfig) : Prop :=
  sections.map SectionConfig.position = List.range sections.length

/-- The density invariant for slides. -/
def slidePositionsDense (slides : List SlideConfig) : Prop :=
  slides.map SlideConfig.position = List.range slides.length

/- ===== C3 / C4 / C10: the generic HTTP client (src/frontend/lib/api.ts,
   ApiClient.request and ApiClient.downloadFile) ===== -/

/-- The outcome of the underlying fetch call.  A response carries the ok
flag, the numeric status, the status text, the content-type header (none
when absent) and the result of response.json() on the body (none when the
body is not parsable JSON).  A network-level failure is a rejection of the
fetch promise with a TypeError carrying the given message. -/
inductive FetchOutcome where
  | response (ok : Bool) (status : Nat) (statusText : String)
      (contentType : Option String) (body : Option Json)
  | networkFailure (message : String)

/-- A JavaScript exception that is not the structured ApiError: either the
TypeError from a rejected fetch, or the SyntaxError from response.json() on
a non-JSON body. -/
inductive JsError where
  | typeError (message : String)
  | syntaxError

/-- What an ApiClient.request call resolves or rejects with. -/
inductive RequestResult where
  | success (value : Json)
  | apiFailure (e : ApiError)
  | thrown (e : JsError)

/-- What an ApiClient.downloadFile call resolves or rejects with. -/
inductive DownloadFileResult where
  | blob
  | apiFailure (e : ApiError)
  | thrown (e : JsError)

/-- Whether a downloadFile outcome rejected with the structured ApiError
shape (as opposed to an unwrapped JavaScript exception). -/
def DownloadFileResult.isApiError : DownloadFileResult → Bool
  | .apiFailure _ => true
  | _ => false

/-- The error message computed in the non-ok branch of ApiClient.request:
errorMessage starts as the fallback HTTP line; if the parsed body has a
truthy detail field it is used, else a truthy message field, else the body
itself when it is a string; a parse failure (body = none) keeps the
fallback. -/
def requestErrorMessage (status : Nat) (statusText : String)
    (body : Option Json) : Json :=
  let fallback := Json.str ("HTTP " ++ toString status ++ ": " ++ statusText)
  match body with
  | none => fallback
  | some errorData =>
    if truthyOpt (errorData.getField "detail") then
      (errorData.getField "detail").getD fallback
    else if truthyOpt (errorData.getField "message") then
      (errorData.getField "message").getD fallback
    else if errorData.isStr then errorData
    else fallback

/-- The error message computed in the non-ok branch of
ApiClient.downloadFile; the source duplicates the logic of the request
branch verbatim. -/
def downloadFileErrorMessage (status : Nat) (statusText : String)
    (body : Option Json) : Json :=
  let fallback := Json.str ("HTTP " ++ toString status ++ ": " ++ statusText)
  match body with
  | none => fallback
  | some errorData =>
    if truthyOpt (errorData.getField "detail") then
      (errorData.getField "detail").getD fallback
    else if truthyOpt (errorData.getField "message") then
      (errorData.getField "message").getD fallback
    else if errorData.isStr then errorData
    else fallback

/-- Whether the content-type gate of ApiClient.request lets the body be
parsed: the header must be present (non-null, non-empty: an empty header
string contains no occurrence of the JSON marker, matching the falsy check)
and contain application/json. -/
def advertisesJson : Option String → Bool
  | none => false
  | some contentType => jsIncludes contentType "application/json"

/-- ApiClient.request as a function of the fetch outcome.  The non-ok branch
throws the structured ApiError built from requestErrorMessage and the HTTP
status; that throw passes through the outer catch unchanged because a plain
object is not a TypeError.  An ok response whose content type does not
advertise JSON resolves with the empty object without touching the body; an
ok JSON response resolves with the parsed body, and a parse failure there is
a SyntaxError that the outer catch rethrows.  A rejected fetch is converted
to ApiError with status_code 0 only when it is a TypeError whose message
contains the word fetch; any other exception is rethrown as-is. -/
def ApiClient.request : FetchOutcome → RequestResult
  | .networkFailure message =>
    if jsIncludes message "fetch" then
      .apiFailure { detail := Json.str "Network error: Unable to connect to the server",
                    status_code := 0 }
    else .thrown (.typeError message)
  | .response ok status statusText contentType body =>
    if ok then
      if advertisesJson contentType then
        match body with
        | some v => .success v
        | none => .thrown .syntaxError
      else .success (Json.obj [])
    else
      .apiFailure { detail := requestErrorMessage status statusText body,
                    status_code := status }

/-- ApiClient.downloadFile as a function of the fetch outcome.  It has no
try/catch around fetch, so a rejected fetch propagates as the raw TypeError;
a non-ok response throws the structured ApiError; an ok response resolves
with the blob. -/
def ApiClient.downloadFile : FetchOutcome → DownloadFileResult
  | .networkFailure message => .thrown (.typeError message)
  | .response ok status statusText _ body =>
    if ok then .blob
    else
      .apiFailure { detail := downloadFileErrorMessage status statusText body,
                    status_code := status }

/-- Modelled from the claim wording, for comparison with the source: detail
is taken whenever the field is PRESENT, else message whenever present, else
the body itself when it is a JSON string, else the fallback line. -/
def claimedErrorMessage (status : Nat) (statusText : String)
    (body : Option Json) : Json :=
  let fallback := Json.str ("HTTP " ++ toString status ++ ": " ++ statusText)
  match body with
  | none => fallback
  | some errorData =>
    match errorData.getField "detail" with
    | some d => d
    | none =>
      match errorData.getField "message" with
      | some m => m
      | none => match errorData with
        | .str s => Json.str s
        | _ => fallback

/-- The amended priority rule, stated independently of the source shape:
the first of detail and message that is present AND truthy wins, then a
string body, then the fallback line. -/
def amendedErrorMessage (status : Nat) (statusText : String)
    (body : Option Json) : Json :=
  let fallback := Json.str ("HTTP " ++ toString status ++ ": " ++ statusText)
  match body with
  | none => fallback
  | some errorData =>
    match Option.filter Json.truthy (errorData.getField "detail"),
          Option.filter Json.truthy (errorData.getField "message"),
          errorData with
    | some d, _, _ => d
    | none, some m, _ => m
    | none, none, .str s => Json.str s
    | none, none, _ => fallback

/- ===== C5: new project form (NewProjectPage.handleSubmit) ===== -/

/-- The document_type union of the types module: the only two values the
TypeScript type admits and the only two the DocumentTypeSelector offers. -/
inductive DocumentType where
  | word
  | powerpoint
deriving DecidableEq

/-- ProjectCreate from the types module: the new-project form data. -/
structure ProjectCreate where
  name : String
  document_type : DocumentType
  topic : String

/-- What a submission of the new-project form does: either it stops with an
inline validation error (before any network call), or it invokes
projectsApi.createProject with the form data. -/
inductive SubmitOutcome where
  | validationError (message : String)
  | createProjectCall (payload : ProjectCreate)

/-- NewProjectPage.handleSubmit: reject with an inline error when the
trimmed name or the trimmed topic is empty, otherwise call createProject
with the form data. -/
def NewProjectPage.handleSubmit (formData : ProjectCreate) : SubmitOutcome :=
  if jsTrim formData.name = "" ∨ jsTrim formData.topic = "" then
    .validationError "Please fill in all required fields"
  else
    .createProjectCall formData

/- ===== C6: configuration save (ConfigurePage.handleSave and
   projectsApi.updateConfiguration) ===== -/

/-- The value stored under the single key of the configuration payload. -/
inductive ConfigValue where
  | sectionList (sections : List SectionConfig)
  | slideList (slides : List SlideConfig)

/-- ConfigurePage.handleSave: the payload object passed to
projectsApi.updateConfiguration, as its list of key/value bindings.  The
source selects with a conditional on document_type equal to word, producing
an object literal with the single key sections, and otherwise an object
literal with the single key slides. -/
def ConfigurePage.handleSave (document_type : DocumentType)
    (sections : List SectionConfig) (slides : List SlideConfig) :
    List (String × ConfigValue) :=
  if document_type = .word then [("sections", .sectionList sections)]
  else [("slides", .slideList slides)]

/- ===== C7: feedback buttons (FeedbackButtons.handleFeedback) ===== -/

/-- The like/dislike union of the feedback API. -/
inductive FeedbackType where
  | like
  | dislike
deriving DecidableEq

/-- The observable outcome of one handleFeedback invocation: the tracked
feedback value afterwards, and whether the feedback API was called. -/
structure FeedbackOutcome where
  feedback : Option FeedbackType
  apiCalled : Bool
deriving DecidableEq

/-- FeedbackButtons.handleFeedback: clicking the currently tracked feedback
type returns before any API call; otherwise the API is called and the
tracked value is set to the requested type only when the call succeeds
(the catch branch leaves it unchanged). -/
def FeedbackButtons.handleFeedback (current : Option FeedbackType)
    (requested : FeedbackType) (apiResult : Except ApiError Unit) :
    FeedbackOutcome :=
  if current = some requested then { feedback := current, apiCalled := false }
  else
    match apiResult with
    | .ok _ => { feedback := some requested, apiCalled := true }
    | .error _ => { feedback := current, apiCalled := true }

/- ===== C8: refinement and generation failure handling (SectionCard.tsx,
   GenerationProgress) ===== -/

/-- Section from the types module (timestamps kept as opaque strings). -/
structure Section where
  id : String
  project_id : String
  header : String
  content : Option String
  position : Nat
  created_at : String
  updated_at : String

/-- The SectionCard state touched by handleRefine: the displayed section and
the inline error message. -/
structure SectionCardState where
  «section» : Section
  error : Option String

/-- SectionCard.handleRefine as a function of the prior state and the result
of the single contentApi.refineSection call it makes; the second component
counts the refine API calls made by the invocation (always exactly one: the
handler never retries on its own).  On success the section is replaced via
onUpdate and the error stays cleared; in the catch branch the section is
untouched and the inline error is set to the fallback text (the caught
ApiError carries no message property, so err.message or-else the fallback
yields the fallback). -/
def SectionCard.handleRefine (st : SectionCardState)
    (apiResult : Except ApiError Section) : SectionCardState × Nat :=
  match apiResult with
  | .ok sec => ({ «section» := sec, error := none }, 1)
  | .error _ => ({ st with error := some "Failed to refine content" }, 1)

/-- The response of the bulk generation endpoint. -/
structure GenerationResponse where
  status : String
  message : String

/-- The GenerationProgress state touched by handleGenerate. -/
structure GenerationProgressState where
  error : Option Json
  progress : Option GenerationResponse

/-- GenerationProgress.handleGenerate as a function of the result of the
single projectsApi.generateContent call it makes.  The components of the
result are the new state, the number of generate API calls made by the
invocation (always exactly one) and whether onGenerationComplete was
scheduled.  On success the progress banner shows the response and completion
is scheduled; in the catch branch the inline error is set to the error
detail (or the fallback text when the detail is falsy), the progress banner
is cleared, and completion is NOT scheduled, so the editor keeps its prior
content; retrying happens only through handleRetry, which a button click
invokes. -/
def GenerationProgress.handleGenerate (apiResult : Except ApiError GenerationResponse) :
    GenerationProgressState × Nat × Bool :=
  match apiResult with
  | .ok r =>
    ({ error := none, progress := some { status := r.status, message := r.message } },
     1, true)
  | .error e =>
    ({ error := some (jsOr e.detail (Json.str "Failed to generate content")),
       progress := none }, 1, false)

/- ===== C9: comment owner controls (CommentBox.tsx) ===== -/

/-- User from the types module. -/
structure User where
  id : String
  email : String
  name : String
  created_at : String

/-- Comment from the types module. -/
structure Comment where
  id : String
  comment_text : String
  user_id : String
  created_at : String
  updated_at : String

/-- The render-time condition guarding the edit and delete buttons of a
comment in CommentBox: user and-also comment.user_id strictly equal to
user.id (a logged-out viewer has user null, so the guard is false). -/
def CommentBox.showOwnerControls (user : Option User) (comment : Comment) : Bool :=
  match user with
  | some u => comment.user_id == u.id
  | none => false

/-- The renumbering map writes exactly the indices into the position
fields. -/
theorem map_position_reindexSections (l : List SectionConfig) :
    (reindexSections l).map SectionConfig.position = List.range l.length := by
  simp only [reindexSections, List.map_map]
  have h : (SectionConfig.position ∘ fun p : Nat × SectionConfig =>
      { p.2 with position := p.1 }) = Prod.fst := rfl
  rw [h, List.enum_map_fst]

/-- The renumbering map keeps the length. -/
theorem length_reindexSections (l : List SectionConfig) :
    (reindexSections l).length = l.length := by
  simp [reindexSections]

/-- Any renumbered list satisfies the density invariant. -/
theorem dense_reindexSections (l : List SectionConfig) :
    sectionPositionsDense (reindexSections l) := by
  unfold sectionPositionsDense
  rw [map_position_reindexSections, length_reindexSections]

/-- Each Word outline editor operation preserves the density invariant. -/
theorem wordOp_preserves_dense (l : List SectionConfig) (op : WordOp)
    (h : sectionPositionsDense l) : sectionPositionsDense (applyWordOp l op) := by
  cases op with
  | add header =>
    simp only [applyWordOp, WordOutlineEditor.handleAddSection]
    split
    · unfold sectionPositionsDense at h ⊢
      simp [h, List.range_succ]
    · exact h
  | remove index =>
    exact dense_reindexSections _
  | moveUp index =>
    simp only [applyWordOp, WordOutlineEditor.handleMoveUp]
    split
    · exact h
    · exact dense_reindexSections _
  | moveDown index =>
    simp only [applyWordOp, WordOutlineEditor.handleMoveDown]
    split
    · exact h
    · exact dense_reindexSections _

/-- The slide list rebuilt for a new count carries positions 0..count-1. -/
theorem map_position_slideRebuild (n : Nat) (slides : List SlideConfig) :
    ((List.range n).map (fun i =>
        ({ title := ((slides.get? i).map SlideConfig.title).getD "",
           position := i } : SlideConfig))).map SlideConfig.position =
      List.range n := by
  rw [List.map_map]
  have h : (SlideConfig.position ∘ fun i : Nat =>
      ({ title := ((slides.get? i).map SlideConfig.title).getD "",
         position := i } : SlideConfig)) = id := rfl
  rw [h, List.map_id]

/-- Each PowerPoint slide editor operation preserves the density
invariant. -/
theorem slideOp_preserves_dense (l : List SlideConfig) (op : SlideOp)
    (h : slidePositionsDense l) : slidePositionsDense (applySlideOp l op) := by
  cases op with
  | changeCount parsedCount valueIsEmpty =>
    cases parsedCount with
    | none =>
      simp only [applySlideOp, PowerPointSlideEditor.handleSlideCountChange]
      split
      · exact rfl
      · exact h
    | some count =>
      simp only [applySlideOp, PowerPointSlideEditor.handleSlideCountChange]
      split
      · unfold slidePositionsDense
        rw [List.length_map, List.length_range]
        exact map_position_slideRebuild count.toNat l
      · split
        · exact rfl
        · exact h
  | changeTitle index title =>
    simp only [applySlideOp, PowerPointSlideEditor.handleSlideTitleChange]
    unfold slidePositionsDense at h ⊢
    have hlen : (l.enum.map (fun p : Nat × SlideConfig =>
        if p.1 = index then { p.2 with title := title } else p.2)).length =
        l.length := by
      simp
    rw [hlen]
    have hmap : (l.enum.map (fun p : Nat × SlideConfig =>
        if p.1 = index then { p.2 with title := title } else p.2)).map
          SlideConfig.position = l.map SlideConfig.position := by
      rw [List.map_map]
      have step : ∀ p ∈ l.enum,
          (SlideConfig.position ∘ fun p : Nat × SlideConfig =>
            if p.1 = index then { p.2 with title := title } else p.2) p =
          (SlideConfig.position ∘ Prod.snd) p := by
        intro p _
        by_cases hp : p.1 = index <;> simp [hp]
      rw [List.map_congr_left step, ← List.map_map, List.enum_map_snd]
    rw [hmap, h]

/-- A sequence of Word outline editor operations preserves density. -/
theorem applyWordOps_preserves_dense (ops : List WordOp) :
    ∀ l, sectionPositionsDense l → sectionPositionsDense (applyWordOps l ops) := by
  induction ops with
  | nil => exact fun l h => h
  | cons op rest ih =>
    intro l h
    unfold applyWordOps at ih ⊢
    rw [List.foldl_cons]
    exact ih _ (wordOp_preserves_dense l op h)

/-- A sequence of PowerPoint slide editor operations preserves density. -/
theorem applySlideOps_preserves_dense (ops : List SlideOp) :
    ∀ l, slidePositionsDense l → slidePositionsDense (applySlideOps l ops) := by
  induction ops with
  | nil => exact fun l h => h
  | cons op rest ih =>
    intro l h
    unfold applySlideOps at ih ⊢
    rw [List.foldl_cons]
    exact ih _ (slideOp_preserves_dense l op h)

/-- C2: starting from a list whose position fields equal its indices (the
empty list included), every sequence of Word outline editor operations
(add, remove, move-up, move-down) and every sequence of PowerPoint slide
editor operations (slide-count change, title change) yields a list whose
position fields are exactly 0, 1, ..., n-1 in array order. -/
theorem editor_ops_keep_positions_dense (sections : List SectionConfig)
    (slides : List SlideConfig) (wordOps : List WordOp) (slideOps : List SlideOp)
    (hw : sectionPositionsDense sections) (hs : slidePositionsDense slides) :
    sectionPositionsDense (applyWordOps sections wordOps) ∧
    slidePositionsDense (applySlideOps slides slideOps) :=
  ⟨applyWordOps_preserves_dense wordOps sections hw,
    applySlideOps_preserves_dense slideOps slides hs⟩

/-- Witness for C2: a concrete editing session on both editors, starting
from the empty lists. -/
theorem editor_ops_keep_positions_dense_witness :
    sectionPositionsDense (applyWordOps []
      [.add "Intro", .add "Body", .add "Conclusion", .moveUp 2, .remove 0]) ∧
    slidePositionsDense (applySlideOps []
      [.changeCount (some 3) false, .changeTitle 1 "Overview"]) :=
  editor_ops_keep_positions_dense [] []
    [.add "Intro", .add "Body", .add "Conclusion", .moveUp 2, .remove 0]
    [.changeCount (some 3) false, .changeTitle 1 "Overview"] rfl rfl

/-- Core of C3: the non-ok error message actually computed by the request
branch agrees with the truthiness-based priority rule. -/
theorem requestErrorMessage_eq_amended (status : Nat) (statusText : String)
    (body : Option Json) :
    requestErrorMessage status statusText body =
      amendedErrorMessage status statusText body := by
  cases body with
  | none => rfl
  | some errorData =>
    simp only [requestErrorMessage, amendedErrorMessage]
    rcases hd : errorData.getField "detail" with _ | d
    · rcases hm : errorData.getField "message" with _ | m
      · cases errorData <;>
          simp [truthyOpt, hd, hm, Option.filter, Json.isStr]
      · by_cases ht : m.truthy
        · simp [truthyOpt, hd, hm, Option.filter, ht]
        · simp [truthyOpt, hd, hm, Option.filter, ht]
          cases errorData <;> simp [Json.isStr]
    · by_cases ht : d.truthy
      · simp [truthyOpt, hd, Option.filter, ht]
      · rcases hm : errorData.getField "message" with _ | m
        · cases errorData <;>
            simp [truthyOpt, hd, hm, Option.filter, ht, Json.isStr]
        · by_cases ht2 : m.truthy
          · simp [truthyOpt, hd, hm, Option.filter, ht, ht2]
          · simp [truthyOpt, hd, hm, Option.filter, ht, ht2]
            cases errorData <;> simp [Json.isStr]

/-- C3 counterexample: on the body with detail present but empty and
message m, the code picks m (the truthy check skips the present-but-falsy
detail field) while the claimed presence-based priority picks the empty
detail; the two results differ. -/
theorem error_detail_priority_cex :
    Json.strValue? (requestErrorMessage 400 "Bad Request"
        (some (Json.obj [("detail", Json.str ""), ("message", Json.str "m")]))) =
      some "m" ∧
    Json.strValue? (claimedErrorMessage 400 "Bad Request"
        (some (Json.obj [("detail", Json.str ""), ("message", Json.str "m")]))) =
      some "" ∧
    (Json.strValue? (requestErrorMessage 400 "Bad Request"
        (some (Json.obj [("detail", Json.str ""), ("message", Json.str "m")]))) ==
      Json.strValue? (claimedErrorMessage 400 "Bad Request"
        (some (Json.obj [("detail", Json.str ""), ("message", Json.str "m")])))) =
      false :=
  ⟨rfl, rfl, rfl⟩

/-- C3 amended: for every non-ok response the thrown error is a structured
ApiError whose status_code is the HTTP status and whose detail follows the
truthiness priority — the detail field when present and truthy, else the
message field when present and truthy, else the body itself when it is a
JSON string, else the fallback HTTP line (also on a non-JSON or unparsable
body); the same rule governs both ApiClient.request and
ApiClient.downloadFile. -/
theorem error_detail_truthy_priority (status : Nat) (statusText : String)
    (body : Option Json) (contentType : Option String) :
    requestErrorMessage status statusText body =
      amendedErrorMessage status statusText body ∧
    downloadFileErrorMessage status statusText body =
      amendedErrorMessage status statusText body ∧
    ApiClient.request (.response false status statusText contentType body) =
      .apiFailure { detail := requestErrorMessage status statusText body,
                    status_code := status } ∧
    ApiClient.downloadFile (.response false status statusText contentType body) =
      .apiFailure { detail := downloadFileErrorMessage status statusText body,
                    status_code := status } :=
  ⟨requestErrorMessage_eq_amended status statusText body,
    requestErrorMessage_eq_amended status statusText body, rfl, rfl⟩

/-- C1: dashboard navigation selects the destination solely from the
project's status: each of generating, ready, ready_for_refinement and
partially_generated routes to the editor screen, and every other status
value, configuring and unknown/future strings included, routes to the
configuration screen; in particular the concrete status
unknown_future_value routes to the configuration screen. -/
theorem dashboard_route_for_status (projectId status : String) :
    DashboardPage.handleSelectProjectRoute projectId status =
      (if status = "generating" ∨ status = "ready" ∨
          status = "ready_for_refinement" ∨ status = "partially_generated"
       then "/projects/" ++ projectId ++ "/editor"
       else "/projects/" ++ projectId ++ "/configure") ∧
    DashboardPage.handleSelectProjectRoute projectId "unknown_future_value" =
      "/projects/" ++ projectId ++ "/configure" := by
  constructor
  · unfold DashboardPage.handleSelectProjectRoute
    split_ifs with h1 h2 h3 h4 h5 <;> simp_all
  · rfl

/-- C4 counterexample: a network-level fetch failure inside
ApiClient.downloadFile is NOT surfaced as a structured ApiError with
status_code 0 — downloadFile has no catch, so the raw TypeError from the
rejected fetch propagates to the caller unchanged. -/
theorem download_network_error_cex :
    ApiClient.downloadFile (.networkFailure "Failed to fetch") =
      .thrown (.typeError "Failed to fetch") ∧
    (ApiClient.downloadFile (.networkFailure "Failed to fetch")).isApiError = false :=
  ⟨rfl, rfl⟩

/-- C4 amended: in ApiClient.request a network-level fetch failure whose
TypeError message contains the word fetch is surfaced as a structured
ApiError with status_code 0; in ApiClient.downloadFile every network-level
failure propagates as the raw TypeError. -/
theorem network_failure_normalization (message : String) :
    (jsIncludes message "fetch" = true →
      ApiClient.request (.networkFailure message) =
        .apiFailure { detail := Json.str "Network error: Unable to connect to the server",
                      status_code := 0 }) ∧
    ApiClient.downloadFile (.networkFailure message) = .thrown (.typeError message) := by
  constructor
  · intro h
    simp [ApiClient.request, h]
  · rfl

/-- Witness for the C4 amended theorem at the Chrome network-failure
message. -/
theorem network_failure_normalization_witness :
    jsIncludes "Failed to fetch" "fetch" = true ∧
    ApiClient.request (.networkFailure "Failed to fetch") =
      .apiFailure { detail := Json.str "Network error: Unable to connect to the server",
                    status_code := 0 } ∧
    ApiClient.downloadFile (.networkFailure "Failed to fetch") =
      .thrown (.typeError "Failed to fetch") :=
  ⟨rfl, (network_failure_normalization "Failed to fetch").1 rfl,
    (network_failure_normalization "Failed to fetch").2⟩

/-- C5: a new-project submission whose trimmed name or trimmed topic is
empty stops with the inline validation error before any network call, and
every payload that reaches createProject carries document_type word or
powerpoint (the only values of the TypeScript union). -/
theorem new_project_submit_validation (formData : ProjectCreate) :
    (jsTrim formData.name = "" ∨ jsTrim formData.topic = "" →
      NewProjectPage.handleSubmit formData =
        .validationError "Please fill in all required fields") ∧
    (∀ payload, NewProjectPage.handleSubmit formData = .createProjectCall payload →
      payload.document_type = .word ∨ payload.document_type = .powerpoint) := by
  constructor
  · intro h
    unfold NewProjectPage.handleSubmit
    rw [if_pos h]
  · intro payload _
    cases hdt : payload.document_type
    · exact Or.inl rfl
    · exact Or.inr rfl

/-- Witness for C5: an all-whitespace name is rejected inline, and a
well-formed submission carries a document_type from the union. -/
theorem new_project_submit_validation_witness :
    NewProjectPage.handleSubmit ⟨" ", .word, "quarterly roadmap"⟩ =
      .validationError "Please fill in all required fields" ∧
    (ProjectCreate.document_type ⟨"Q4 Plan", .word, "quarterly roadmap"⟩ = .word ∨
      ProjectCreate.document_type ⟨"Q4 Plan", .word, "quarterly roadmap"⟩ = .powerpoint) :=
  ⟨(new_project_submit_validation ⟨" ", .word, "quarterly roadmap"⟩).1 (Or.inl rfl),
    (new_project_submit_validation ⟨"Q4 Plan", .word, "quarterly roadmap"⟩).2
      ⟨"Q4 Plan", .word, "quarterly roadmap"⟩ rfl⟩

/-- C6: the configuration payload is keyed by the project's document_type:
a word project sends an object whose only key is sections, a powerpoint
project an object whose only key is slides, and no payload ever carries
both keys. -/
theorem configuration_payload_by_doc_type (document_type : DocumentType)
    (sections : List SectionConfig) (slides : List SlideConfig) :
    (ConfigurePage.handleSave .word sections slides).map Prod.fst = ["sections"] ∧
    (ConfigurePage.handleSave .powerpoint sections slides).map Prod.fst = ["slides"] ∧
    (((ConfigurePage.handleSave document_type sections slides).map Prod.fst).contains "sections"
      && ((ConfigurePage.handleSave document_type sections slides).map
            Prod.fst).contains "slides") = false := by
  refine ⟨rfl, rfl, ?_⟩
  cases document_type <;> rfl

/-- C7: submitting the tracked feedback type again is a no-op (no API call,
value unchanged); submitting a different type calls the API, and the
tracked value becomes the requested type exactly when the call succeeds,
while a failed call leaves it unchanged. -/
theorem feedback_idempotent_overwrite (current : Option FeedbackType)
    (requested : FeedbackType) (apiResult : Except ApiError Unit) (e : ApiError) :
    FeedbackButtons.handleFeedback (some requested) requested apiResult =
      { feedback := some requested, apiCalled := false } ∧
    (current ≠ some requested →
      (FeedbackButtons.handleFeedback current requested apiResult).apiCalled = true ∧
      (FeedbackButtons.handleFeedback current requested (.ok ())).feedback =
        some requested ∧
      (FeedbackButtons.handleFeedback current requested (.error e)).feedback =
        current) := by
  constructor
  · unfold FeedbackButtons.handleFeedback
    rw [if_pos rfl]
  · intro h
    unfold FeedbackButtons.handleFeedback
    rw [if_neg h, if_neg h, if_neg h]
    refine ⟨?_, rfl, rfl⟩
    cases apiResult <;> rfl

/-- Witness for C7 at concrete feedback values. -/
theorem feedback_idempotent_overwrite_witness :
    FeedbackButtons.handleFeedback (some .like) .like (.ok ()) =
      { feedback := some .like, apiCalled := false } ∧
    (FeedbackButtons.handleFeedback none .like (.ok ())).apiCalled = true ∧
    (FeedbackButtons.handleFeedback none .like (.ok ())).feedback = some .like ∧
    (FeedbackButtons.handleFeedback none .like
      (.error ⟨Json.str "boom", 500⟩)).feedback = none := by
  have h := feedback_idempotent_overwrite none .like (.ok ()) ⟨Json.str "boom", 500⟩
  have h2 := h.2 (by simp)
  exact ⟨h.1, h2.1, h2.2.1, h2.2.2⟩

/-- C8: a failed refinement leaves the displayed section unchanged and sets
the inline error; the section is replaced only by the successful response;
a failed bulk generation clears the progress banner, sets the inline error
and does not schedule completion; and each handler invocation performs
exactly one API call, so no retry happens without a new user action. -/
theorem refine_failure_preserves_content (st : SectionCardState) (e : ApiError)
    (apiResult : Except ApiError Section) (sec : Section) :
    (SectionCard.handleRefine st (.error e)).1.«section» = st.«section» ∧
    (SectionCard.handleRefine st (.error e)).1.error =
      some "Failed to refine content" ∧
    (SectionCard.handleRefine st apiResult).2 = 1 ∧
    (SectionCard.handleRefine st (.ok sec)).1.«section» = sec ∧
    (GenerationProgress.handleGenerate (.error e)).1.progress = none ∧
    (GenerationProgress.handleGenerate (.error e)).1.error =
      some (jsOr e.detail (Json.str "Failed to generate content")) ∧
    (GenerationProgress.handleGenerate (.error e)).2 = (1, false) := by
  refine ⟨rfl, rfl, ?_, rfl, rfl, rfl, rfl⟩
  cases apiResult <;> rfl

/-- C9: the edit and delete controls of a rendered comment are shown exactly
when a user is logged in and the comment's user_id equals that user's id. -/
theorem comment_controls_owner_only (user : Option User) (comment : Comment) :
    CommentBox.showOwnerControls user comment = true ↔
      ∃ u, user = some u ∧ comment.user_id = u.id := by
  cases user with
  | none => simp [CommentBox.showOwnerControls]
  | some u => simp [CommentBox.showOwnerControls]

/-- C10: a successful response whose content-type header is absent or does
not contain application/json resolves to the empty object, whatever the
body holds (even an unparsable one). -/
theorem request_non_json_ok_yields_empty_object (status : Nat)
    (statusText : String) (contentType : Option String) (body : Option Json)
    (h : advertisesJson contentType = false) :
    ApiClient.request (.response true status statusText contentType body) =
      .success (Json.obj []) := by
  simp [ApiClient.request, h]

/-- Witness for C10 at a plain-text response carrying a non-JSON body. -/
theorem request_non_json_ok_yields_empty_object_witness :
    advertisesJson (some "text/plain") = false ∧
    ApiClient.request (.response true 200 "OK" (some "text/plain")
        (some (Json.str "hello"))) = .success (Json.obj []) :=
  ⟨rfl, request_non_json_ok_yields_empty_object 200 "OK" (some "text/plain")
    (some (Json.str "hello")) rfl⟩
